import Mathlib

/-!
Shallow embedding of `rust-libp2p-stream` (`src/lib.rs`) in Lean 4.

The crate composes a libp2p transport-upgrade pipeline: noise encryption,
peer-id verification, yamux multiplexing, and per-substream multistream-select
protocol negotiation, with timeouts at the connection level
(`TransportTimeout`) and at the negotiation level (`tokio::time::timeout`).

Asynchronous operations are embedded by making the environment explicit: each
awaited external operation (opening a yamux stream, a multistream-select
round-trip, surfacing an inbound stream) is described by a record carrying its
result and its duration, and `tokio::time::timeout` is embedded as a
comparison of the body's completion time against the deadline.  Streams
(`futures::Stream`) are embedded as lists of their items.
-/

namespace Libp2pStream

/-- Decidable equality for `Except`, for evaluating concrete pipeline
outcomes. -/
instance {ε α : Type} [DecidableEq ε] [DecidableEq α] : DecidableEq (Except ε α) :=
  fun a b =>
    match a, b with
    | .error e, .error f =>
      if h : e = f then isTrue (by rw [h]) else isFalse (by simp [h])
    | .error _, .ok _ => isFalse (by simp)
    | .ok _, .error _ => isFalse (by simp)
    | .ok x, .ok y =>
      if h : x = y then isTrue (by rw [h]) else isFalse (by simp [h])

/-- Protocol names (`&'static str` in the source, e.g. `"/hello-world/1.0.0"`). -/
abbrev ProtocolName := String

/-- Peer identifiers (`libp2p::PeerId`), opaque with value equality. -/
abbrev PeerId := Nat

/-- Multiaddresses (`libp2p::Multiaddr`), opaque. -/
abbrev Multiaddr := String

/-- Opaque model of `std::io::Error` payloads. -/
structure IoError where
  code : Nat
deriving DecidableEq, Repr

/-- Opaque model of `yamux::ConnectionError` causes. -/
structure YamuxConnectionError where
  code : Nat
deriving DecidableEq, Repr

/-- Model of `multistream_select::NegotiationError`: either no protocol could
be agreed on (`Failed`) or the negotiation protocol itself misbehaved or hit
an I/O error (`ProtocolError`). -/
inductive NegotiationError where
  | Failed
  | ProtocolError (io : IoError)
deriving DecidableEq, Repr

/-- The crate's error enum (`lib.rs` lines 199-207): exactly three variants,
with `#[from]` conversions for `yamux::ConnectionError` into `Multiplexer`
and `multistream_select::NegotiationError` into `NegotiationFailed`. -/
inductive Error where
  | NegotiationTimeoutReached
  | Multiplexer (cause : YamuxConnectionError)
  | NegotiationFailed (cause : NegotiationError)
deriving DecidableEq, Repr

/-- A raw `yamux::Stream`, opaque. -/
structure YamuxStream where
  id : Nat
deriving DecidableEq, Repr

/-- A `Negotiated<yamux::Stream>` (= `Substream` in the source).  The model
additionally records the protocol the negotiation completed for, so that
specification statements can refer to it. -/
structure Substream where
  raw : YamuxStream
  negotiatedProtocol : ProtocolName
deriving DecidableEq, Repr

/-- Model of `multistream_select::dialer_select_proto(stream, vec![protocol], V1)`:
the dialer proposes exactly one protocol; the remote accepts it iff it is in
the remote's supported list, otherwise negotiation ends with `Failed`; an I/O
or framing fault during the round-trip (environment field `ioErr`) ends it
with `ProtocolError`. -/
def dialer_select_proto (protocol : ProtocolName) (remoteSupported : List ProtocolName)
    (ioErr : Option IoError) (s : YamuxStream) :
    Except NegotiationError (ProtocolName × Substream) :=
  match ioErr with
  | some e => .error (.ProtocolError e)
  | none =>
    if protocol ∈ remoteSupported then .ok (protocol, ⟨s, protocol⟩)
    else .error .Failed

/-- Environment for one call to `Control::open_substream`: the result and
duration of `self.inner.open_stream()`, and the remote side of the
multistream-select round-trip with its duration. -/
structure OutboundEnv where
  openStream : Except YamuxConnectionError YamuxStream
  openDur : Nat
  remoteSupported : List ProtocolName
  negIoErr : Option IoError
  negDur : Nat
deriving Repr

/-- Completion time of the async block inside `open_substream`: if
`open_stream` fails the block returns after `openDur`; otherwise it also runs
the negotiation, returning after `openDur + negDur`. -/
def outboundBodyDur (env : OutboundEnv) : Nat :=
  match env.openStream with
  | .error _ => env.openDur
  | .ok _ => env.openDur + env.negDur

/-- The `Control` struct (`lib.rs` lines 167-170): a yamux control handle and
the negotiation timeout.  The handle is opaque; what it does is supplied by
the per-call environment. -/
structure Control where
  inner : Nat
  negotiation_timeout : Nat
deriving DecidableEq, Repr

/-- Model of `Control::open_substream` (`lib.rs` lines 173-192):
`tokio::time::timeout(negotiation_timeout, { open_stream?; dialer_select_proto? })`
followed by `.map_err(|_| NegotiationTimeoutReached)??`.  The `?` on
`open_stream` converts `yamux::ConnectionError` into `Error::Multiplexer`,
the `?` on `dialer_select_proto` converts `NegotiationError` into
`Error::NegotiationFailed`.  The timeout wins iff the body has not completed
strictly before the deadline. -/
def Control.open_substream (c : Control) (protocol : ProtocolName) (env : OutboundEnv) :
    Except Error Substream :=
  let body : Except Error Substream :=
    match env.openStream with
    | .error e => .error (.Multiplexer e)
    | .ok s =>
      match dialer_select_proto protocol env.remoteSupported env.negIoErr s with
      | .error e => .error (.NegotiationFailed e)
      | .ok (_, stream) => .ok stream
  if c.negotiation_timeout ≤ outboundBodyDur env then .error .NegotiationTimeoutReached
  else body

/-- Model of `multistream_select::listener_select_proto(stream, supported)`:
listener role, offering the fixed supported list; the remote proposes one
protocol (environment field `requested`), negotiation selects it iff it is in
the supported list, otherwise ends with `Failed`; an I/O or framing fault
ends it with `ProtocolError`.  On success the selected name is a `&&str`
borrowed from the supported list, dereferenced by the caller. -/
def listener_select_proto (supported : List ProtocolName) (requested : ProtocolName)
    (ioErr : Option IoError) (s : YamuxStream) :
    Except NegotiationError (ProtocolName × Substream) :=
  match ioErr with
  | some e => .error (.ProtocolError e)
  | none =>
    if requested ∈ supported then .ok (requested, ⟨s, requested⟩)
    else .error .Failed

/-- Environment for negotiating one inbound substream surfaced by yamux: the
raw stream, the protocol the remote proposes, an optional protocol-level
fault, and the duration of the negotiation round-trip. -/
structure InboundStreamEnv where
  stream : YamuxStream
  requested : ProtocolName
  negIoErr : Option IoError
  negDur : Nat
deriving Repr

/-- Model of the closure passed to `.and_then` in `Node::new` (`lib.rs` lines
111-124): `tokio::time::timeout(negotiation_timeout, listener_select_proto(stream, supported))`
then `.map_err(|_| NegotiationTimeoutReached)??`, yielding
`Ok((stream, *protocol))` on success.  A total function into `Except`: every
outcome, failure included, is an ordinary value, never a panic. -/
def negotiate_inbound (negotiation_timeout : Nat) (supported : List ProtocolName)
    (env : InboundStreamEnv) : Except Error (Substream × ProtocolName) :=
  if negotiation_timeout ≤ env.negDur then .error .NegotiationTimeoutReached
  else
    match listener_select_proto supported env.requested env.negIoErr env.stream with
    | .error e => .error (.NegotiationFailed e)
    | .ok (protocol, stream) => .ok (stream, protocol)

/-- Trace of one yamux session as seen by `yamux::into_stream(connection)`:
the inbound raw streams it surfaces in order, and, if the connection ends
with a multiplexer error rather than a clean close, that final error item.
After an error (or a clean close) the yamux stream yields nothing further. -/
structure MuxTrace where
  surfaced : List InboundStreamEnv
  endErr : Option YamuxConnectionError
deriving Repr

/-- Model of the `incoming` stream built in `Node::new` (`lib.rs` lines
109-125): `yamux::into_stream(connection).err_into::<Error>().and_then(negotiate).boxed()`.
`err_into` turns the final yamux error item, if any, into `Error::Multiplexer`;
`and_then` maps each surfaced stream through `negotiate_inbound` and passes
error items through unchanged.  The item sequence is the embedding of the
boxed stream's items in order. -/
def incoming (negotiation_timeout : Nat) (supported : List ProtocolName)
    (tr : MuxTrace) : List (Except Error (Substream × ProtocolName)) :=
  tr.surfaced.map (negotiate_inbound negotiation_timeout supported) ++
    match tr.endErr with
    | some e => [.error (.Multiplexer e)]
    | none => []

/-- An inbound substream together with its arrival time at the yamux layer,
for the timed model of the `and_then` combinator. -/
structure TimedInbound where
  arrival : Nat
  env : InboundStreamEnv
deriving Repr

/-- Timed model of `TryStreamExt::and_then` as used for inbound negotiation:
the combinator holds at most one negotiation future in flight, and polls the
underlying yamux stream for the next substream only after the current
negotiation has resolved.  `ready` is the time from which the combinator is
free to poll; each item starts negotiating at `max ready arrival` and
surfaces after `min negDur negotiation_timeout` (the race against
`tokio::time::timeout` caps the wait at the timeout).  Returns the surfacing
time of each item in order. -/
def sequentialSurfaceTimes (negotiation_timeout : Nat) :
    Nat → List TimedInbound → List Nat
  | _, [] => []
  | ready, it :: rest =>
    let finish := max ready it.arrival + min it.env.negDur negotiation_timeout
    finish :: sequentialSurfaceTimes negotiation_timeout finish rest

/-- Modelled from the spec: the surfacing times the specification's
concurrency sentences describe — each inbound substream drives its own
negotiation independently, so it surfaces at its arrival time plus its own
(timeout-capped) negotiation duration, unaffected by other substreams.  Used
only to compare the specified behaviour with `sequentialSurfaceTimes`, the
embedding of the code. -/
def nonBlockingSurfaceTimes (negotiation_timeout : Nat) (items : List TimedInbound) :
    List Nat :=
  items.map (fun it => it.arrival + min it.env.negDur negotiation_timeout)

/-- Least upper bound of the arrival times in a timed trace. -/
def arrivalHigh (items : List TimedInbound) : Nat :=
  (items.map TimedInbound.arrival).foldr max 0

/-- Connection direction (`libp2p_core::Endpoint`). -/
inductive Endpoint where
  | Dialer
  | Listener
deriving DecidableEq, Repr

/-- Yamux session mode (`yamux::Mode`). -/
inductive Mode where
  | Client
  | Server
deriving DecidableEq, Repr

/-- An encrypted, identity-verified stream as handed to the yamux upgrade. -/
structure EncryptedConn where
  id : Nat
deriving DecidableEq, Repr

/-- A yamux session (`yamux::Connection::new(conn, Config::default(), mode)`):
the underlying stream and the mode it was constructed with. -/
structure YamuxConnection where
  conn : EncryptedConn
  mode : Mode
deriving DecidableEq, Repr

/-- Model of the closure passed to `upgrade::from_fn(b"/yamux/1.0.0", ...)` in
`Node::new` (`lib.rs` lines 77-96): match on the endpoint, constructing the
yamux session in `Mode::Client` for `Endpoint::Dialer` and in `Mode::Server`
for `Endpoint::Listener`, and pass the verified peer id through. -/
def yamuxUpgradeFn (peer_id : PeerId) (conn : EncryptedConn) (endpoint : Endpoint) :
    PeerId × YamuxConnection :=
  match endpoint with
  | .Dialer => (peer_id, YamuxConnection.mk conn .Client)
  | .Listener => (peer_id, YamuxConnection.mk conn .Server)

/-- The `Connection` type alias (`lib.rs` lines 30-34): the verified peer id,
the `Control`, and the boxed stream of negotiated inbound substreams,
embedded as its item list. -/
structure Connection where
  peer : PeerId
  control : Control
  incomingItems : List (Except Error (Substream × ProtocolName))

/-- Events of a transport listener (`libp2p_core::transport::ListenerEvent`),
parametrised by the type standing for the upgrade of one accepted connection. -/
inductive ListenerEvent (U : Type) where
  | NewAddress (addr : Multiaddr)
  | Upgrade (upgrade : U)
  | AddressExpired (addr : Multiaddr)
  | ListenerError (e : IoError)

/-- Model of the stream built by `Node::listen_on` (`lib.rs` lines 137-156)
from the inner listener's items: `map_ok` sends `NewAddress`/`AddressExpired`
to `Ok(None)`, an upgrade to `Ok(Some(upgrade))` and a listener error to
`Err(e)`; `try_filter_map` drops the `None`s and raises the inner `Err`s to
stream items; `and_then(|upgrade| upgrade)` awaits each upgrade, whose
result is an `io::Result<Connection>`.  Input items are the inner listener's
items (themselves `io::Result`s); an upgrade is embedded by its eventual
result. -/
def listen_on_items
    (events : List (Except IoError (ListenerEvent (Except IoError Connection)))) :
    List (Except IoError Connection) :=
  events.filterMap fun ev =>
    match ev with
    | .error e => some (.error e)
    | .ok (.NewAddress _) => none
    | .ok (.AddressExpired _) => none
    | .ok (.ListenerError e) => some (.error e)
    | .ok (.Upgrade u) => some u

/-- Whether a listener item is one of the two informational events that
`Node::listen_on` filters out. -/
def isInformational {U : Type}
    (ev : Except IoError (ListenerEvent U)) : Bool :=
  match ev with
  | .ok (.NewAddress _) => true
  | .ok (.AddressExpired _) => true
  | _ => false

/-- One connection attempt through the fully composed upgrade chain (noise
handshake, peer-id verification, yamux setup, inbound-negotiation wrapping):
the time the whole chain takes and the result it would produce. -/
structure UpgradeAttempt where
  dur : Nat
  result : Except IoError Connection

/-- Errors of `libp2p_core::transport::timeout::TransportTimeout`: the timer
fired, or the inner chain failed. -/
inductive TimeoutError where
  | Timeout
  | Other (e : IoError)

/-- Model of the timeout wrapper `TransportTimeout::new(chain, upgrade_timeout)`
applied in `Node::new` (`lib.rs` line 130) to a single connection attempt
(a dial future or one accepted connection's upgrade future): the attempt is
raced against its own timer and fails with `Timeout` iff the chain has not
completed strictly before the deadline. -/
def applyTransportTimeout (upgrade_timeout : Nat) (a : UpgradeAttempt) :
    Except TimeoutError Connection :=
  if upgrade_timeout ≤ a.dur then .error .Timeout
  else
    match a.result with
    | .error e => .error (.Other e)
    | .ok c => .ok c

/-- Model of `TransportTimeout`'s listener: every `Upgrade` event's future is
wrapped with its own timer; all other events pass through untouched. -/
def timeoutListener (upgrade_timeout : Nat)
    (events : List (Except IoError (ListenerEvent UpgradeAttempt))) :
    List (Except IoError (ListenerEvent (Except TimeoutError Connection))) :=
  events.map fun ev =>
    match ev with
    | .error e => .error e
    | .ok (.NewAddress a) => .ok (.NewAddress a)
    | .ok (.AddressExpired a) => .ok (.AddressExpired a)
    | .ok (.ListenerError e) => .ok (.ListenerError e)
    | .ok (.Upgrade a) => .ok (.Upgrade (applyTransportTimeout upgrade_timeout a))

/-- Dial-time errors of a transport
(`libp2p_core::transport::TransportError`): the address is not supported, or
the transport failed with its own error (for the boxed node transport, an
`io::Error`). -/
inductive TransportError where
  | MultiaddrNotSupported (addr : Multiaddr)
  | Other (e : IoError)
deriving DecidableEq, Repr

/-- Model of the `anyhow::Error` values that `Node::connect` and
`Node::listen_on` return (`lib.rs` uses `anyhow::Result`, not
`Result<_, Error>`): a dynamically typed error wrapping whichever cause was
raised by `?`.  The `tagged` constructor stands for a value of the crate's
own `Error` enum, so that statements can ask whether a surface error is one. -/
inductive AnyhowError where
  | dialError (e : TransportError)
  | upgradeError (e : IoError)
  | tagged (e : Error)
deriving DecidableEq, Repr

/-- Whether an `anyhow::Error` at the `connect`/`listen_on` surface is a value
of the crate's tagged `Error` enum. -/
def AnyhowError.isTagged : AnyhowError → Bool
  | .tagged _ => true
  | _ => false

/-- Environment for one call to `Node::connect`: the outcome of
`self.inner.clone().dial(address)` — either an immediate `TransportError`, or
a dial future embedded by its eventual `io::Result<Connection>` (the boxed
transport folds every chain failure, timeout included, into `io::Error`). -/
structure DialEnv where
  dial : Except TransportError (Except IoError Connection)

/-- Model of `Node::connect` (`lib.rs` lines 158-164):
`self.inner.clone().dial(address)?.await?` inside an `anyhow::Result`
function — each `?` wraps its cause into `anyhow::Error`. -/
def Node.connect (env : DialEnv) : Except AnyhowError Connection :=
  match env.dial with
  | .error e => .error (.dialError e)
  | .ok fut =>
    match fut with
    | .error e => .error (.upgradeError e)
    | .ok c => .ok c

/-- Model of a `libp2p` identity keypair as `Node::new` receives it: all that
matters to the pipeline is whether signing the noise static key with it
succeeds.  For a well-formed keypair (intact key material; in particular any
ed25519 keypair, the kind the crate's tests generate) signing always
succeeds; the flag models the `SigningError` that the dependency's
`into_authentic` can raise for defective key material. -/
structure Keypair where
  wellFormed : Bool
deriving DecidableEq, Repr

/-- Opaque model of `libp2p_noise::SigningError`. -/
structure SigningError where
deriving DecidableEq, Repr

/-- Opaque model of the authenticated noise keypair
(`noise::AuthenticKeypair<X25519Spec>`). -/
structure AuthenticKeypair where
deriving DecidableEq, Repr

/-- Model of `noise::Keypair::<X25519Spec>::new().into_authentic(&identity)`:
signs the fresh static key with the identity keypair, failing iff signing
fails. -/
def into_authentic (identity : Keypair) : Except SigningError AuthenticKeypair :=
  if identity.wellFormed then .ok ⟨⟩ else .error ⟨⟩

/-- Result of running code that may panic: either the value, or a panic with
the `expect` message.  There is no error-value constructor — a panic is not a
value returned to the caller. -/
inductive PanicOr (α : Type) where
  | panicked (msg : String)
  | ok (a : α)

/-- The `Node` struct: the boxed composed transport, embedded by the
parameters that determine its behaviour. -/
structure Node where
  supported_inbound_protocols : List ProtocolName
  upgrade_timeout : Nat
  negotiation_timeout : Nat

/-- Model of `Node::new` (`lib.rs` lines 42-135) at the level C9 is about:
the noise identity derivation is the only fallible step, and it is handled
with `.expect("ed25519 signing does not fail")` — a panic, not a returned
error; the function's return type is `Self`, not a `Result`.  The rest of
`Node::new` is pure composition of the upgrade chain. -/
def Node.new (identity : Keypair) (supported_inbound_protocols : List ProtocolName)
    (upgrade_timeout negotiation_timeout : Nat) : PanicOr Node :=
  match into_authentic identity with
  | .error _ => .panicked "ed25519 signing does not fail"
  | .ok _ =>
    .ok ⟨supported_inbound_protocols, upgrade_timeout, negotiation_timeout⟩

/-- Any result of the inbound or outbound negotiation pipeline is a success,
a timeout, a multiplexer error, or a negotiation failure: the `Error` enum has
exactly these three variants. -/
theorem except_error_shape (r : Except Error (Substream × ProtocolName)) :
    (∃ v, r = .ok v) ∨ r = .error .NegotiationTimeoutReached ∨
      (∃ e, r = .error (.Multiplexer e)) ∨
      (∃ e, r = .error (.NegotiationFailed e)) := by
  match r with
  | .ok v => exact .inl ⟨v, rfl⟩
  | .error .NegotiationTimeoutReached => exact .inr (.inl rfl)
  | .error (.Multiplexer e) => exact .inr (.inr (.inl ⟨e, rfl⟩))
  | .error (.NegotiationFailed e) => exact .inr (.inr (.inr ⟨e, rfl⟩))

/-- Claim C1: every call to `Control::open_substream(protocol)` returns exactly
one of: the negotiated substream on success; `NegotiationTimeoutReached` if
the negotiation timeout elapses before both the stream-open and the protocol
negotiation complete; `Multiplexer(cause)` if opening the underlying
multiplexed stream fails; `NegotiationFailed(cause)` if the remote has no
matching protocol. -/
theorem open_substream_taxonomy (c : Control) (p : ProtocolName) (env : OutboundEnv) :
    ((∃ s, c.open_substream p env = .ok s) ∨
      c.open_substream p env = .error .NegotiationTimeoutReached ∨
      (∃ e, c.open_substream p env = .error (.Multiplexer e)) ∨
      (∃ e, c.open_substream p env = .error (.NegotiationFailed e))) ∧
    (c.negotiation_timeout ≤ outboundBodyDur env →
      c.open_substream p env = .error .NegotiationTimeoutReached) ∧
    (∀ e, outboundBodyDur env < c.negotiation_timeout → env.openStream = .error e →
      c.open_substream p env = .error (.Multiplexer e)) ∧
    (∀ s, outboundBodyDur env < c.negotiation_timeout → env.openStream = .ok s →
      env.negIoErr = none → p ∉ env.remoteSupported →
      c.open_substream p env = .error (.NegotiationFailed .Failed)) ∧
    (∀ s, outboundBodyDur env < c.negotiation_timeout → env.openStream = .ok s →
      env.negIoErr = none → p ∈ env.remoteSupported →
      c.open_substream p env = .ok ⟨s, p⟩) := by
  refine ⟨?_, ?_, ?_, ?_, ?_⟩
  · match h : c.open_substream p env with
    | .ok s => exact .inl ⟨s, rfl⟩
    | .error .NegotiationTimeoutReached => exact .inr (.inl rfl)
    | .error (.Multiplexer e) => exact .inr (.inr (.inl ⟨e, rfl⟩))
    | .error (.NegotiationFailed e) => exact .inr (.inr (.inr ⟨e, rfl⟩))
  · intro h
    simp [Control.open_substream, h]
  · intro e hlt he
    simp [Control.open_substream, not_le.mpr hlt, he]
  · intro s hlt hs hio hmem
    simp [Control.open_substream, dialer_select_proto, not_le.mpr hlt, hs, hio, hmem]
  · intro s hlt hs hio hmem
    simp [Control.open_substream, dialer_select_proto, not_le.mpr hlt, hs, hio, hmem]

/-- Concrete instantiation of `open_substream_taxonomy`: each of the four
outcomes is realised at an explicit input. -/
theorem open_substream_taxonomy_witness :
    Control.open_substream ⟨0, 3⟩ "/a" ⟨.ok ⟨1⟩, 5, ["/a"], none, 0⟩ =
        .error .NegotiationTimeoutReached ∧
    Control.open_substream ⟨0, 3⟩ "/a" ⟨.error ⟨7⟩, 0, ["/a"], none, 0⟩ =
        .error (.Multiplexer ⟨7⟩) ∧
    Control.open_substream ⟨0, 3⟩ "/b" ⟨.ok ⟨1⟩, 0, ["/a"], none, 0⟩ =
        .error (.NegotiationFailed .Failed) ∧
    Control.open_substream ⟨0, 3⟩ "/a" ⟨.ok ⟨1⟩, 0, ["/a"], none, 0⟩ =
        .ok ⟨⟨1⟩, "/a"⟩ :=
  ⟨(open_substream_taxonomy ⟨0, 3⟩ "/a" ⟨.ok ⟨1⟩, 5, ["/a"], none, 0⟩).2.1 (by decide),
    (open_substream_taxonomy ⟨0, 3⟩ "/a" ⟨.error ⟨7⟩, 0, ["/a"], none, 0⟩).2.2.1 ⟨7⟩
      (by decide) rfl,
    (open_substream_taxonomy ⟨0, 3⟩ "/b" ⟨.ok ⟨1⟩, 0, ["/a"], none, 0⟩).2.2.2.1 ⟨1⟩
      (by decide) rfl rfl (by decide),
    (open_substream_taxonomy ⟨0, 3⟩ "/a" ⟨.ok ⟨1⟩, 0, ["/a"], none, 0⟩).2.2.2.2 ⟨1⟩
      (by decide) rfl rfl (by decide)⟩

/-- Claim C2: every inbound substream surfaced by the multiplexer contributes
exactly one element to the inbound sequence, and each element is exactly one
of: `Ok((stream, protocol))` when listener-role negotiation over the fixed
supported list succeeds within the timeout; `NegotiationTimeoutReached` when
the timeout expires first; `NegotiationFailed` when there is no mutually
supported protocol; `Multiplexer` when the multiplexer errors while surfacing
the stream. -/
theorem inbound_taxonomy (t : Nat) (supported : List ProtocolName) (tr : MuxTrace) :
    (∀ x ∈ incoming t supported tr,
      (∃ v, x = .ok v) ∨ x = .error .NegotiationTimeoutReached ∨
        (∃ e, x = .error (.Multiplexer e)) ∨
        (∃ e, x = .error (.NegotiationFailed e))) ∧
    (∀ env ∈ tr.surfaced,
      negotiate_inbound t supported env ∈ incoming t supported tr) ∧
    (∀ env ∈ tr.surfaced, t ≤ env.negDur →
      negotiate_inbound t supported env = .error .NegotiationTimeoutReached) ∧
    (∀ env ∈ tr.surfaced, env.negDur < t → env.negIoErr = none →
      env.requested ∉ supported →
      negotiate_inbound t supported env = .error (.NegotiationFailed .Failed)) ∧
    (∀ env ∈ tr.surfaced, env.negDur < t → env.negIoErr = none →
      env.requested ∈ supported →
      negotiate_inbound t supported env = .ok (⟨env.stream, env.requested⟩, env.requested)) ∧
    (∀ e, tr.endErr = some e →
      .error (.Multiplexer e) ∈ incoming t supported tr) := by
  refine ⟨?_, ?_, ?_, ?_, ?_, ?_⟩
  · intro x _
    exact except_error_shape x
  · intro env henv
    exact List.mem_append_left _ (List.mem_map_of_mem _ henv)
  · intro env _ h
    simp [negotiate_inbound, h]
  · intro env _ hlt hio hmem
    simp [negotiate_inbound, listener_select_proto, not_le.mpr hlt, hio, hmem]
  · intro env _ hlt hio hmem
    simp [negotiate_inbound, listener_select_proto, not_le.mpr hlt, hio, hmem]
  · intro e he
    simp [incoming, he]

/-- Concrete instantiation of `inbound_taxonomy`: each outcome realised at an
explicit trace. -/
theorem inbound_taxonomy_witness :
    negotiate_inbound 3 ["/a"] ⟨⟨1⟩, "/a", none, 5⟩ =
        .error .NegotiationTimeoutReached ∧
    negotiate_inbound 3 ["/a"] ⟨⟨1⟩, "/b", none, 0⟩ =
        .error (.NegotiationFailed .Failed) ∧
    negotiate_inbound 3 ["/a"] ⟨⟨1⟩, "/a", none, 0⟩ =
        .ok (⟨⟨1⟩, "/a"⟩, "/a") ∧
    .error (.Multiplexer ⟨9⟩) ∈ incoming 3 ["/a"] ⟨[], some ⟨9⟩⟩ :=
  ⟨(inbound_taxonomy 3 ["/a"] ⟨[⟨⟨1⟩, "/a", none, 5⟩], none⟩).2.2.1
      ⟨⟨1⟩, "/a", none, 5⟩ (by simp) (by decide),
    (inbound_taxonomy 3 ["/a"] ⟨[⟨⟨1⟩, "/b", none, 0⟩], none⟩).2.2.2.1
      ⟨⟨1⟩, "/b", none, 0⟩ (by simp) (by decide) rfl (by decide),
    (inbound_taxonomy 3 ["/a"] ⟨[⟨⟨1⟩, "/a", none, 0⟩], none⟩).2.2.2.2.1
      ⟨⟨1⟩, "/a", none, 0⟩ (by simp) (by decide) rfl (by decide),
    (inbound_taxonomy 3 ["/a"] ⟨[], some ⟨9⟩⟩).2.2.2.2.2 ⟨9⟩ rfl⟩

/-- Claim C4: every surfaced inbound substream yields exactly one element of
the inbound sequence — a value, never a panic — so a negotiation failure or
timeout on one stream neither terminates the sequence nor tears down the
connection: the element at position `k` is determined by stream `k` alone,
every one of the `tr.surfaced.length` streams is represented whatever the
other elements are, and the sequence ends only with the underlying yamux
session (clean close, or one final `Multiplexer` element on a session
error). -/
theorem inbound_failures_are_elements (t : Nat) (supported : List ProtocolName)
    (tr : MuxTrace) :
    (incoming t supported tr).length =
        tr.surfaced.length + (match tr.endErr with | some _ => 1 | none => 0) ∧
    (∀ k, k < tr.surfaced.length →
      (incoming t supported tr)[k]? =
        (tr.surfaced[k]?).map (negotiate_inbound t supported)) := by
  constructor
  · cases h : tr.endErr <;> simp [incoming, h]
  · intro k hk
    have hlt : k < (tr.surfaced.map (negotiate_inbound t supported)).length := by
      simpa using hk
    rw [incoming, List.getElem?_append_left hlt, List.getElem?_map]

/-- Concrete instantiation of `inbound_failures_are_elements`: on a trace
whose first negotiation fails, the second stream still gets its element and
the sequence has one element per stream. -/
theorem inbound_failures_are_elements_witness :
    (incoming 3 ["/a"] ⟨[⟨⟨1⟩, "/b", none, 0⟩, ⟨⟨2⟩, "/a", none, 0⟩], none⟩).length = 2 ∧
    (incoming 3 ["/a"] ⟨[⟨⟨1⟩, "/b", none, 0⟩, ⟨⟨2⟩, "/a", none, 0⟩], none⟩)[1]? =
      some (negotiate_inbound 3 ["/a"] ⟨⟨2⟩, "/a", none, 0⟩) :=
  ⟨(inbound_failures_are_elements 3 ["/a"]
      ⟨[⟨⟨1⟩, "/b", none, 0⟩, ⟨⟨2⟩, "/a", none, 0⟩], none⟩).1,
    (inbound_failures_are_elements 3 ["/a"]
      ⟨[⟨⟨1⟩, "/b", none, 0⟩, ⟨⟨2⟩, "/a", none, 0⟩], none⟩).2 1 (by decide)⟩

/-- Two substreams both arrive at time 0 on a connection with a negotiation
timeout of 5; the first's negotiation hangs (duration 100), the second's is
instant.  Under the code's `and_then` combinator the second substream
surfaces only at time 5, after the first's timeout fires, whereas independent
concurrent negotiation would surface it at time 0: an inbound substream that
runs up to the negotiation timeout does delay the next one. -/
theorem inbound_negotiation_blocks_counterexample :
    sequentialSurfaceTimes 5 0
        [⟨0, ⟨⟨1⟩, "/a", none, 100⟩⟩, ⟨0, ⟨⟨2⟩, "/a", none, 0⟩⟩] = [5, 5] ∧
    nonBlockingSurfaceTimes 5
        [⟨0, ⟨⟨1⟩, "/a", none, 100⟩⟩, ⟨0, ⟨⟨2⟩, "/a", none, 0⟩⟩] = [5, 0] := by
  constructor <;> rfl

/-- Claim C5 as amended: inbound substreams on one connection are negotiated
sequentially — the combinator polls the next surfaced substream only after
the current negotiation completes or times out — so a slow negotiation delays
subsequent substreams by up to `negotiation_timeout` each; because every
negotiation is capped by the timeout, the sequence still always progresses:
every surfaced substream is delivered no later than the latest relevant
arrival plus `length · negotiation_timeout`. -/
theorem inbound_sequential_progress (t ready : Nat) (items : List TimedInbound) :
    ∀ fk ∈ sequentialSurfaceTimes t ready items,
      fk ≤ max ready (arrivalHigh items) + items.length * t := by
  induction items generalizing ready with
  | nil =>
    intro fk hfk
    simp [sequentialSurfaceTimes] at hfk
  | cons it rest ih =>
    intro fk hfk
    have hconsEq : sequentialSurfaceTimes t ready (it :: rest) =
        (max ready it.arrival + min it.env.negDur t) ::
          sequentialSurfaceTimes t (max ready it.arrival + min it.env.negDur t) rest := rfl
    rw [hconsEq] at hfk
    have hA : arrivalHigh (it :: rest) = max it.arrival (arrivalHigh rest) := rfl
    have hd : min it.env.negDur t ≤ t := Nat.min_le_right _ _
    have hmul : ((it :: rest).length) * t = rest.length * t + t := by
      rw [List.length_cons, Nat.succ_mul]
    rw [hA, hmul]
    rcases List.mem_cons.mp hfk with h | h
    · subst h
      omega
    · have hih := ih (max ready it.arrival + min it.env.negDur t) fk h
      omega

/-- Concrete instantiation of `inbound_sequential_progress`. -/
theorem inbound_sequential_progress_witness :
    5 ∈ sequentialSurfaceTimes 5 0
        [⟨0, ⟨⟨1⟩, "/a", none, 100⟩⟩, ⟨0, ⟨⟨2⟩, "/a", none, 0⟩⟩] ∧
    5 ≤ max 0 (arrivalHigh [⟨0, ⟨⟨1⟩, "/a", none, 100⟩⟩, ⟨0, ⟨⟨2⟩, "/a", none, 0⟩⟩]) +
        ([⟨0, ⟨⟨1⟩, "/a", none, 100⟩⟩, ⟨0, ⟨⟨2⟩, "/a", none, 0⟩⟩] :
          List TimedInbound).length * 5 :=
  ⟨by decide,
    inbound_sequential_progress 5 0
      [⟨0, ⟨⟨1⟩, "/a", none, 100⟩⟩, ⟨0, ⟨⟨2⟩, "/a", none, 0⟩⟩] 5 (by decide)⟩

/-- Claim C6: the multiplexer role depends solely on the connection
direction — a dialer constructs the yamux session in `Mode::Client`, a
listener in `Mode::Server` — while the verified peer id and the encrypted
stream pass through unchanged for every direction. -/
theorem yamux_mode_by_direction (peer_id : PeerId) (conn : EncryptedConn) :
    (yamuxUpgradeFn peer_id conn .Dialer).2.mode = .Client ∧
    (yamuxUpgradeFn peer_id conn .Listener).2.mode = .Server ∧
    ∀ endpoint, (yamuxUpgradeFn peer_id conn endpoint).1 = peer_id ∧
      (yamuxUpgradeFn peer_id conn endpoint).2.conn = conn := by
  refine ⟨rfl, rfl, ?_⟩
  intro endpoint
  cases endpoint <;> exact ⟨rfl, rfl⟩

/-- Claim C3: a connection attempt — a dial, or one accepted connection's
upgrade — whose upgrade chain has not completed within `upgrade_timeout`
fails with a timeout error; an attempt completing strictly within the
timeout passes its chain result through; and on the listener every accepted
upgrade is wrapped with its own timer, so the item at position `k` of the
timed listener is determined by event `k` alone. -/
theorem upgrade_timeout_enforced (upgrade_timeout : Nat) :
    (∀ a : UpgradeAttempt, upgrade_timeout ≤ a.dur →
      applyTransportTimeout upgrade_timeout a = .error .Timeout) ∧
    (∀ a : UpgradeAttempt, ∀ c, a.dur < upgrade_timeout → a.result = .ok c →
      applyTransportTimeout upgrade_timeout a = .ok c) ∧
    (∀ (events : List (Except IoError (ListenerEvent UpgradeAttempt))) (k : Nat)
        (a : UpgradeAttempt), events[k]? = some (.ok (.Upgrade a)) →
      (timeoutListener upgrade_timeout events)[k]? =
        some (.ok (.Upgrade (applyTransportTimeout upgrade_timeout a)))) := by
  refine ⟨?_, ?_, ?_⟩
  · intro a h
    simp [applyTransportTimeout, h]
  · intro a c hlt hres
    simp [applyTransportTimeout, not_le.mpr hlt, hres]
  · intro events k a h
    simp [timeoutListener, List.getElem?_map, h]

/-- Concrete instantiation of `upgrade_timeout_enforced`: a slow accept fails
with `Timeout`, a fast dial passes through, and the listener wraps the event
at index 0. -/
theorem upgrade_timeout_enforced_witness :
    applyTransportTimeout 10 ⟨10, .ok ⟨7, ⟨0, 3⟩, []⟩⟩ = .error .Timeout ∧
    applyTransportTimeout 10 ⟨2, .ok ⟨7, ⟨0, 3⟩, []⟩⟩ = .ok ⟨7, ⟨0, 3⟩, []⟩ ∧
    (timeoutListener 10 [.ok (.Upgrade ⟨10, .ok ⟨7, ⟨0, 3⟩, []⟩⟩)])[0]? =
      some (.ok (.Upgrade (applyTransportTimeout 10 ⟨10, .ok ⟨7, ⟨0, 3⟩, []⟩⟩))) :=
  ⟨(upgrade_timeout_enforced 10).1 ⟨10, .ok ⟨7, ⟨0, 3⟩, []⟩⟩ (by decide),
    (upgrade_timeout_enforced 10).2.1 ⟨2, .ok ⟨7, ⟨0, 3⟩, []⟩⟩ ⟨7, ⟨0, 3⟩, []⟩
      (by decide) rfl,
    (upgrade_timeout_enforced 10).2.2 [.ok (.Upgrade ⟨10, .ok ⟨7, ⟨0, 3⟩, []⟩⟩)] 0
      ⟨10, .ok ⟨7, ⟨0, 3⟩, []⟩⟩ rfl⟩

/-- Claim C7: the stream returned by `Node::listen_on` never surfaces the
informational listener events — dropping them leaves its items unchanged —
its `Ok` items are exactly the completed per-accept upgrades, and listener
errors surface as `Err` items. -/
theorem listen_on_filters_events
    (events : List (Except IoError (ListenerEvent (Except IoError Connection)))) :
    listen_on_items events =
        listen_on_items (events.filter (fun ev => !isInformational ev)) ∧
    (∀ c, .ok c ∈ listen_on_items events ↔
      .ok (ListenerEvent.Upgrade (.ok c)) ∈ events) ∧
    (∀ e, .ok (ListenerEvent.ListenerError e) ∈ events →
      .error e ∈ listen_on_items events) := by
  refine ⟨?_, ?_, ?_⟩
  · induction events with
    | nil => rfl
    | cons ev rest ih =>
      cases ev with
      | error e =>
        simpa [listen_on_items, isInformational, List.filterMap_cons,
          List.filter_cons] using ih
      | ok le =>
        cases le <;>
          simpa [listen_on_items, isInformational, List.filterMap_cons,
            List.filter_cons] using ih
  · intro c
    constructor
    · intro hc
      rcases List.mem_filterMap.mp hc with ⟨a, ha, hfa⟩
      match a, hfa with
      | .ok (.Upgrade u), hfa =>
        have hu : u = .ok c := by
          simpa using hfa
        rw [hu] at ha
        exact ha
      | .error e, hfa => simp at hfa
      | .ok (.NewAddress _), hfa => simp at hfa
      | .ok (.AddressExpired _), hfa => simp at hfa
      | .ok (.ListenerError e), hfa => simp at hfa
    · intro hc
      exact List.mem_filterMap.mpr ⟨.ok (.Upgrade (.ok c)), hc, rfl⟩
  · intro e he
    exact List.mem_filterMap.mpr ⟨.ok (.ListenerError e), he, rfl⟩

/-- Concrete instantiation of `listen_on_filters_events` on a trace holding a
new-address event, one successful upgrade and one listener error. -/
theorem listen_on_filters_events_witness :
    Except.ok (⟨7, ⟨0, 3⟩, []⟩ : Connection) ∈
        listen_on_items [.ok (.NewAddress "/memory/1"),
          .ok (.Upgrade (.ok ⟨7, ⟨0, 3⟩, []⟩)), .ok (.ListenerError ⟨3⟩)] ∧
    Except.error (⟨3⟩ : IoError) ∈
        listen_on_items [.ok (.NewAddress "/memory/1"),
          .ok (.Upgrade (.ok ⟨7, ⟨0, 3⟩, []⟩)), .ok (.ListenerError ⟨3⟩)] :=
  ⟨((listen_on_filters_events [.ok (.NewAddress "/memory/1"),
        .ok (.Upgrade (.ok ⟨7, ⟨0, 3⟩, []⟩)), .ok (.ListenerError ⟨3⟩)]).2.1
      ⟨7, ⟨0, 3⟩, []⟩).mpr (List.Mem.tail _ (List.Mem.head _)),
    (listen_on_filters_events [.ok (.NewAddress "/memory/1"),
        .ok (.Upgrade (.ok ⟨7, ⟨0, 3⟩, []⟩)), .ok (.ListenerError ⟨3⟩)]).2.2 ⟨3⟩
      (List.Mem.tail _ (List.Mem.tail _ (List.Mem.head _)))⟩

/-- Claim C8 counterexample: a failure surfaced by `Node::connect` is not a
value of the crate's tagged `Error` enum — `connect` returns
`anyhow::Result`, and a dial for an unsupported address surfaces the
transport's `MultiaddrNotSupported` error, which carries none of the three
`Error` variants. -/
theorem connect_error_untyped_counterexample :
    Node.connect ⟨.error (.MultiaddrNotSupported "/memory/1")⟩ =
        .error (.dialError (.MultiaddrNotSupported "/memory/1")) ∧
    AnyhowError.isTagged (.dialError (.MultiaddrNotSupported "/memory/1")) = false :=
  ⟨rfl, rfl⟩

/-- Claim C8 as amended: the tagged `Error` enum has exactly the variants
`NegotiationTimeoutReached`, `Multiplexer` and `NegotiationFailed`, and
`Control::open_substream` (like the inbound substream sequence) fails only
with values of it, so callers can distinguish the three kinds there; but
`Node::connect` (and `Node::listen_on`) return `anyhow::Result` values whose
failures are never the tagged `Error` type. -/
theorem error_taxonomy_surface :
    (∀ (c : Control) (p : ProtocolName) (env : OutboundEnv) (e : Error),
      c.open_substream p env = .error e →
      e = .NegotiationTimeoutReached ∨ (∃ y, e = .Multiplexer y) ∨
        (∃ n, e = .NegotiationFailed n)) ∧
    (∀ (denv : DialEnv) (e : AnyhowError), Node.connect denv = .error e →
      e.isTagged = false) := by
  constructor
  · intro c p env e _
    match e with
    | .NegotiationTimeoutReached => exact .inl rfl
    | .Multiplexer y => exact .inr (.inl ⟨y, rfl⟩)
    | .NegotiationFailed n => exact .inr (.inr ⟨n, rfl⟩)
  · intro denv e h
    rcases denv with ⟨dial⟩
    cases dial with
    | error te =>
      simp [Node.connect] at h
      rw [← h]
      rfl
    | ok fut =>
      cases fut with
      | error ioe =>
        simp [Node.connect] at h
        rw [← h]
        rfl
      | ok conn =>
        simp [Node.connect] at h

/-- Concrete instantiation of `error_taxonomy_surface`: a timed-out
`open_substream` fails with one of the three tagged variants, and a failed
dial surfaces an untagged error. -/
theorem error_taxonomy_surface_witness :
    ((Error.NegotiationTimeoutReached = .NegotiationTimeoutReached) ∨
      (∃ y, Error.NegotiationTimeoutReached = .Multiplexer y) ∨
      (∃ n, Error.NegotiationTimeoutReached = .NegotiationFailed n)) ∧
    AnyhowError.isTagged (.dialError (.Other ⟨1⟩)) = false :=
  ⟨error_taxonomy_surface.1 ⟨0, 3⟩ "/a" ⟨.ok ⟨1⟩, 5, ["/a"], none, 0⟩
      .NegotiationTimeoutReached rfl,
    error_taxonomy_surface.2 ⟨.error (.Other ⟨1⟩)⟩ (.dialError (.Other ⟨1⟩)) rfl⟩

/-- Claim C9: `Node::new` never returns a runtime error — its only fallible
step, deriving the authenticated noise identity, succeeds for every
well-formed keypair, and a derivation failure is an `expect` panic carrying
the programming-invariant message, not an error value (the return type has
no error case at all). -/
theorem node_new_never_errors (identity : Keypair)
    (supported : List ProtocolName) (ut nt : Nat) :
    (identity.wellFormed = true →
      Node.new identity supported ut nt = .ok ⟨supported, ut, nt⟩) ∧
    (identity.wellFormed = false →
      Node.new identity supported ut nt = .panicked "ed25519 signing does not fail") := by
  constructor
  · intro h
    simp [Node.new, into_authentic, h]
  · intro h
    simp [Node.new, into_authentic, h]

/-- Concrete instantiation of `node_new_never_errors`. -/
theorem node_new_never_errors_witness :
    Node.new ⟨true⟩ ["/a"] 10 3 = .ok ⟨["/a"], 10, 3⟩ ∧
    Node.new ⟨false⟩ ["/a"] 10 3 = .panicked "ed25519 signing does not fail" :=
  ⟨(node_new_never_errors ⟨true⟩ ["/a"] 10 3).1 rfl,
    (node_new_never_errors ⟨false⟩ ["/a"] 10 3).2 rfl⟩

/-- Claim C10: every `Ok((stream, protocol))` element of the inbound
substream sequence carries a protocol name drawn from the
`supported_inbound_protocols` list fixed at `Node::new`, and the stream
completed negotiation for exactly that protocol. -/
theorem inbound_protocol_from_supported (t : Nat) (supported : List ProtocolName)
    (tr : MuxTrace) (s : Substream) (p : ProtocolName) :
    .ok (s, p) ∈ incoming t supported tr →
    p ∈ supported ∧ s.negotiatedProtocol = p := by
  intro h
  rw [incoming] at h
  rcases List.mem_append.mp h with h | h
  · rcases List.mem_map.mp h with ⟨env, _, heq⟩
    rw [negotiate_inbound] at heq
    by_cases ht : t ≤ env.negDur
    · rw [if_pos ht] at heq
      simp at heq
    · rw [if_neg ht, listener_select_proto.eq_def] at heq
      cases hio : env.negIoErr with
      | some e =>
        rw [hio] at heq
        simp at heq
      | none =>
        rw [hio] at heq
        by_cases hmem : env.requested ∈ supported
        · rw [if_pos hmem] at heq
          simp only [Except.ok.injEq, Prod.mk.injEq] at heq
          rcases heq with ⟨hs, hp⟩
          subst hp
          subst hs
          exact ⟨hmem, rfl⟩
        · rw [if_neg hmem] at heq
          simp at heq
  · cases he : tr.endErr with
    | some e =>
      rw [he] at h
      simp at h
    | none =>
      rw [he] at h
      simp at h

/-- Concrete instantiation of `inbound_protocol_from_supported`. -/
theorem inbound_protocol_from_supported_witness :
    "/a" ∈ ["/a", "/b"] ∧
      (⟨⟨1⟩, "/a"⟩ : Substream).negotiatedProtocol = "/a" :=
  inbound_protocol_from_supported 3 ["/a", "/b"] ⟨[⟨⟨1⟩, "/a", none, 0⟩], none⟩
    ⟨⟨1⟩, "/a"⟩ "/a" (by decide)

end Libp2pStream
